import Mathlib

/-!
Verification of the SPIKE_AI repository's natural-language specification
against a shallow embedding of its Python source.

Embedded modules:
  * `app/utils/date_parser.py`   — date-range resolution (`parse_date_range`,
    `get_human_readable_range`)
  * `app/utils/ga4_validation.py` — allowlist validation (`validate_plan`)
  * `app/utils/llm.py`           — deterministic fallback planner (`_fallback_plan`)
  * `app/orchestrator.py`        — intent routing and response merging
  * `app/agents/seo_agent.py`    — `general_seo_health`
  * `app/agents/ga4_agent.py`    — demo-mode execution path

Python strings are modelled as Lean `String`, operating on their character
lists; Python dicts whose key sets are statically known become structures with
`Option` fields for possibly-absent keys; heterogeneous Python dict values
become the inductive `PyVal`; a Python function that can raise becomes a
function into `Except`.
-/

/-- Substring test on character lists: does `sub` occur contiguously in the
second list?  Models Python's `sub in s` for strings. -/
def listContainsSub (sub : List Char) : List Char → Bool
  | [] => sub.isEmpty
  | c :: rest => sub.isPrefixOf (c :: rest) || listContainsSub sub rest

/-- Python `sub in s` on strings. -/
def pyContains (s sub : String) : Bool := listContainsSub sub.data s.data

/-- Python `s.lower()` (ASCII-faithful). -/
def pyLower (s : String) : String := String.mk (s.data.map Char.toLower)

/-- Python `sep.join(parts)`. -/
def pyJoin (sep : String) : List String → String
  | [] => ""
  | [x] => x
  | x :: y :: xs => x ++ sep ++ pyJoin sep (y :: xs)

/-- The ASCII single-quote character (code 39) as a one-character string. -/
def pyQuote : String := String.mk [Char.ofNat 39]

/-- Python `repr` of a simple string (no escapes needed for the names that
occur in this program), as used by `str(list_of_str)` in f-strings. -/
def pyReprStr (s : String) : String := pyQuote ++ s ++ pyQuote

/-- Python `str(l)` for a list of strings, as interpolated into f-strings:
`['a', 'b']`. -/
def pyReprStrList (l : List String) : String :=
  "[" ++ pyJoin ", " (l.map pyReprStr) ++ "]"

/-! ## app/utils/date_parser.py -/

/-- The `DateRange` value constructed by `date_parser.py` (start/end tokens of
the GA4 `DateRange` protobuf). -/
structure DateRange where
  start_date : String
  end_date : String
deriving DecidableEq, Repr

/-- Python's `\s` character class (re module, ASCII whitespace). -/
def pyIsSpace (c : Char) : Bool :=
  c = ' ' || c = '\t' || c = '\n' || c = '\r' || c = '\x0b' || c = '\x0c'

/-- Python's `\d` character class. -/
def pyIsDigit (c : Char) : Bool := '0' ≤ c && c ≤ '9'

/-- Numeric value of a digit run, as `int(...)` computes it. -/
def natOfDigits (l : List Char) : Nat :=
  l.foldl (fun n c => n * 10 + (c.toNat - '0'.toNat)) 0

/-- The alternation `(day|week|month)` of the regex in `parse_date_range`,
tried at the head of `l` in the regex's left-to-right order. -/
def unitAt (l : List Char) : Option String :=
  if "day".data.isPrefixOf l then some "day"
  else if "week".data.isPrefixOf l then some "week"
  else if "month".data.isPrefixOf l then some "month"
  else none

/-- One anchored attempt of the regex `(\d+)\s*(day|week|month)s?` at the head
of `l`: a maximal nonempty digit run, maximal whitespace run, then a unit.
(The greedy maximal-munch reading is exact here: no shorter digit or
whitespace run can let the unit alternation succeed when the maximal one
fails, because a digit or whitespace character can never begin a unit.) -/
def numericMatchAt (l : List Char) : Option (Nat × String) :=
  let digits := l.takeWhile pyIsDigit
  let rest1 := l.dropWhile pyIsDigit
  if digits.isEmpty then none
  else
    let rest2 := rest1.dropWhile pyIsSpace
    match unitAt rest2 with
    | some u => some (natOfDigits digits, u)
    | none => none

/-- `re.search` for the numeric pattern: try each start position left to
right. -/
def reSearchNumeric : List Char → Option (Nat × String)
  | [] => none
  | c :: rest =>
    match numericMatchAt (c :: rest) with
    | some r => some r
    | none => reSearchNumeric rest

/-- The normalization step of `parse_date_range`:
`date_label.lower().replace(" ", "_")`. -/
def normalizeLabel (date_label : String) : String :=
  String.mk ((date_label.data.map Char.toLower).map fun c => if c = ' ' then '_' else c)

/-- Embedding of `parse_date_range` (`app/utils/date_parser.py`, lines
11-65). -/
def parse_date_range (date_label : String) : DateRange :=
  let label := normalizeLabel date_label
  if label ∈ ["last_7_days", "last_week", "past_7_days"] then
    ⟨"7daysAgo", "today"⟩
  else if label ∈ ["last_14_days", "past_14_days", "two_weeks"] then
    ⟨"14daysAgo", "today"⟩
  else if label ∈ ["last_30_days", "last_month", "past_30_days"] then
    ⟨"30daysAgo", "today"⟩
  else if label ∈ ["last_90_days", "last_quarter", "past_90_days"] then
    ⟨"90daysAgo", "today"⟩
  else if label ∈ ["last_year", "past_year", "last_365_days"] then
    ⟨"365daysAgo", "today"⟩
  else if label ∈ ["yesterday"] then
    ⟨"yesterday", "yesterday"⟩
  else if label ∈ ["today", "current_day"] then
    ⟨"today", "today"⟩
  else
    match reSearchNumeric label.data with
    | some (number, unit) =>
      let days :=
        if unit = "day" then number
        else if unit = "week" then number * 7
        else if unit = "month" then number * 30
        else 7
      ⟨toString days ++ "daysAgo", "today"⟩
    | none => ⟨"7daysAgo", "today"⟩

/-- Embedding of `get_human_readable_range` (`app/utils/date_parser.py`,
lines 68-93). -/
def get_human_readable_range (date_range : DateRange) : String :=
  let start := date_range.start_date
  let endTok := date_range.end_date
  if start = "7daysAgo" && endTok = "today" then "Last 7 days"
  else if start = "14daysAgo" && endTok = "today" then "Last 14 days"
  else if start = "30daysAgo" && endTok = "today" then "Last 30 days"
  else if start = "yesterday" && endTok = "yesterday" then "Yesterday"
  else if start = "today" && endTok = "today" then "Today"
  else start ++ " to " ++ endTok

/-- All labels appearing in the synonym table of `parse_date_range`. -/
def synonym_labels : List String :=
  ["last_7_days", "last_week", "past_7_days",
   "last_14_days", "past_14_days", "two_weeks",
   "last_30_days", "last_month", "past_30_days",
   "last_90_days", "last_quarter", "past_90_days",
   "last_year", "past_year", "last_365_days",
   "yesterday", "today", "current_day"]

/-- A string built by appending a nonempty literal is nonempty. -/
theorem append_ne_empty_of_right (a b : String) (hb : b.data ≠ []) : a ++ b ≠ "" := by
  intro h
  have hd : (a ++ b).data = [] := by rw [h]
  rw [String.data_append] at hd
  exact hb (List.append_eq_nil.mp hd).2

/-- C2: the spec claims the numeric-unit pattern handles `"5 days"`,
`"3 weeks"` and `"2 months"` (weeks ×7, months ×30).  The code's own comment
gives `"5 days"` and `"3 weeks"` as examples for this branch, but
normalization replaces the space with an underscore before the regex
`(\d+)\s*(day|week|month)s?` runs, and `\s*` cannot match `_`; all three
inputs therefore fall through to the default 7-day range.  Without the space
(e.g. `"5days"`) the branch behaves as the spec describes. -/
theorem parse_date_range_numeric_spaced_inputs_fall_to_default :
    parse_date_range "5 days" = ⟨"7daysAgo", "today"⟩ ∧
    parse_date_range "3 weeks" = ⟨"7daysAgo", "today"⟩ ∧
    parse_date_range "2 months" = ⟨"7daysAgo", "today"⟩ ∧
    parse_date_range "5days" = ⟨"5daysAgo", "today"⟩ ∧
    parse_date_range "3weeks" = ⟨"21daysAgo", "today"⟩ ∧
    parse_date_range "2months" = ⟨"60daysAgo", "today"⟩ := by
  decide

/-- C7: the three labels `"last_7_days"`, `"last week"` and `"past_7_days"`
all resolve to the identical canonical range `("7daysAgo", "today")`, and
`get_human_readable_range` maps that range to `"Last 7 days"`. -/
theorem seven_day_synonyms_resolve_identically :
    parse_date_range "last_7_days" = ⟨"7daysAgo", "today"⟩ ∧
    parse_date_range "last week" = ⟨"7daysAgo", "today"⟩ ∧
    parse_date_range "past_7_days" = ⟨"7daysAgo", "today"⟩ ∧
    get_human_readable_range ⟨"7daysAgo", "today"⟩ = "Last 7 days" := by
  decide

/-- Membership in a group of the synonym table implies membership in the full
label list. -/
theorem memSubTab {x : String} (l : List String)
    (hl : ∀ y ∈ l, y ∈ synonym_labels) (hx : x ∈ l) : x ∈ synonym_labels :=
  hl x hx

set_option maxHeartbeats 1600000 in
/-- C9: the date-range resolver is total — every input yields a range with
nonempty start and end tokens — and any input whose normalized form matches
neither the synonym table nor the numeric-unit regex yields the default
7-day range `("7daysAgo", "today")`. -/
theorem parse_date_range_total_and_default (s : String)
    (htab : normalizeLabel s ∉ synonym_labels)
    (hnum : reSearchNumeric (normalizeLabel s).data = none) :
    parse_date_range s = ⟨"7daysAgo", "today"⟩ ∧
    ∀ t : String,
      (parse_date_range t).start_date ≠ "" ∧ (parse_date_range t).end_date ≠ "" := by
  constructor
  · unfold parse_date_range
    dsimp only
    split
    · next h => exact absurd (memSubTab _ (by decide) h) htab
    · split
      · next h => exact absurd (memSubTab _ (by decide) h) htab
      · split
        · next h => exact absurd (memSubTab _ (by decide) h) htab
        · split
          · next h => exact absurd (memSubTab _ (by decide) h) htab
          · split
            · next h => exact absurd (memSubTab _ (by decide) h) htab
            · split
              · next h => exact absurd (memSubTab _ (by decide) h) htab
              · split
                · next h => exact absurd (memSubTab _ (by decide) h) htab
                · rw [hnum]
  · intro t
    unfold parse_date_range
    dsimp only
    refine ⟨?_, ?_⟩ <;>
    · split
      · decide
      · split
        · decide
        · split
          · decide
          · split
            · decide
            · split
              · decide
              · split
                · decide
                · split
                  · decide
                  · split
                    · first
                      | exact (by decide : ("today" : String) ≠ "")
                      | exact append_ne_empty_of_right _ "daysAgo" (by decide)
                    · decide

/-- C9 witness: a concrete input matching neither table nor regex. -/
theorem parse_date_range_total_and_default_witness :
    (normalizeLabel "gibberish input" ∉ synonym_labels) ∧
    reSearchNumeric (normalizeLabel "gibberish input").data = none ∧
    parse_date_range "gibberish input" = ⟨"7daysAgo", "today"⟩ := by
  refine ⟨by decide, by decide, ?_⟩
  exact (parse_date_range_total_and_default "gibberish input" (by decide) (by decide)).1

/-! ## app/utils/ga4_validation.py -/

/-- The metrics allowlist `ALLOWED_METRICS` (a Python set literal; modelled as
the list of its elements and used only through membership). -/
def ALLOWED_METRICS : List String :=
  ["sessions", "totalUsers", "screenPageViews", "activeUsers", "newUsers",
   "bounceRate", "averageSessionDuration", "conversions", "eventCount",
   "engagementRate"]

/-- The dimensions allowlist `ALLOWED_DIMENSIONS`. -/
def ALLOWED_DIMENSIONS : List String :=
  ["date", "pagePath", "pageTitle", "sessionSource", "sessionMedium",
   "sessionCampaign", "country", "city", "deviceCategory", "operatingSystem",
   "browser", "eventName", "landingPage"]

/-- Embedding of `validate_metrics` (`ga4_validation.py`, lines 46-57):
returns `(is_valid, invalid_metrics)`. -/
def validate_metrics (metrics : List String) : Bool × List String :=
  let invalid_metrics := metrics.filter fun m => !(ALLOWED_METRICS.contains m)
  (invalid_metrics.length == 0, invalid_metrics)

/-- Embedding of `validate_dimensions` (`ga4_validation.py`, lines 60-71). -/
def validate_dimensions (dimensions : List String) : Bool × List String :=
  let invalid_dimensions := dimensions.filter fun d => !(ALLOWED_DIMENSIONS.contains d)
  (invalid_dimensions.length == 0, invalid_dimensions)

/-- A GA4 query-plan dict as read by `validate_plan`: each key the function
looks up may be absent (`none`).  The `filters` key is never read by the
validator and is not modelled here. -/
structure GA4Plan where
  metrics : Option (List String)
  dimensions : Option (List String)
  date_range : Option String
deriving DecidableEq, Repr

/-- The success dict returned by `validate_plan`. -/
structure ValidationOk where
  valid : Bool
  metrics_count : Nat
  dimensions_count : Nat
  validated_at : String
deriving DecidableEq, Repr

/-- The `errors` list accumulated by `validate_plan` (`ga4_validation.py`,
lines 87-106), in source order: invalid metrics, invalid dimensions, missing
or falsy (empty) `metrics`, missing `date_range`. -/
def validate_plan_errors (plan : GA4Plan) : List String :=
  (match plan.metrics with
   | some ms =>
     let v := validate_metrics ms
     if !v.1 then ["Invalid metrics: " ++ pyReprStrList v.2] else []
   | none => []) ++
  (match plan.dimensions with
   | some ds =>
     let v := validate_dimensions ds
     if !v.1 then ["Invalid dimensions: " ++ pyReprStrList v.2] else []
   | none => []) ++
  (if plan.metrics = none ∨ plan.metrics = some [] then
     ["At least one metric is required"]
   else []) ++
  (if plan.date_range = none then ["Date range is required"] else [])

/-- Embedding of `validate_plan` (`ga4_validation.py`, lines 74-116).  The
Python function raises `ValueError` on any violation; raising is modelled as
`Except.error` carrying the exception message. -/
def validate_plan (plan : GA4Plan) : Except String ValidationOk :=
  if (validate_plan_errors plan).isEmpty then
    .ok { valid := true,
          metrics_count := (plan.metrics.getD []).length,
          dimensions_count := (plan.dimensions.getD []).length,
          validated_at := "ga4_validation.py" }
  else
    .error ("GA4 plan validation failed: " ++ pyJoin "; " (validate_plan_errors plan))

/-- Bridge between the executable substring test and `List.IsInfix`. -/
theorem listContainsSub_iff (sub : List Char) (l : List Char) :
    listContainsSub sub l = true ↔ sub <:+: l := by
  induction l with
  | nil => simp [listContainsSub, List.isEmpty_iff, List.infix_nil]
  | cons c rest ih =>
    simp [listContainsSub, List.infix_cons_iff, ih, Bool.or_eq_true,
       List.isPrefixOf_iff_prefix]

/-- An infix stays an infix after gluing context on both sides. -/
theorem infix_extend {α : Type} {a b : List α} (pre post : List α)
    (h : a <:+: b) : a <:+: pre ++ b ++ post := by
  obtain ⟨s, t, rfl⟩ := h
  exact ⟨pre ++ s, t ++ post, by simp⟩

/-- A member of a joined list occurs as a substring of the join. -/
theorem mem_pyJoin_isSub (sep : String) (l : List String) (x : String)
    (hx : x ∈ l) : x.data <:+: (pyJoin sep l).data := by
  induction l with
  | nil => cases hx
  | cons y ys ih =>
    cases ys with
    | nil =>
      rcases List.mem_singleton.mp hx with rfl
      exact ⟨[], [], by simp [pyJoin]⟩
    | cons z zs =>
      rcases List.mem_cons.mp hx with rfl | hmem
      · exact ⟨[], sep.data ++ (pyJoin sep (z :: zs)).data,
          by simp [pyJoin, String.data_append]⟩
      · obtain ⟨s, t, hst⟩ := ih hmem
        refine ⟨(y ++ sep).data ++ s, t, ?_⟩
        simp [pyJoin, String.data_append, ← hst]

/-- A member of a repr-formatted string list occurs as a substring of the
formatted text. -/
theorem mem_pyReprStrList_isSub (x : String) (l : List String) (hx : x ∈ l) :
    x.data <:+: (pyReprStrList l).data := by
  have h1 : x.data <:+: (pyReprStr x).data :=
    ⟨pyQuote.data, pyQuote.data, by simp [pyReprStr, String.data_append]⟩
  have h2 : (pyReprStr x).data <:+: (pyJoin ", " (l.map pyReprStr)).data :=
    mem_pyJoin_isSub _ _ _ (List.mem_map_of_mem _ hx)
  have h3 := infix_extend "[".data "]".data (h1.trans h2)
  have h4 : "[".data ++ (pyJoin ", " (l.map pyReprStr)).data ++ "]".data =
      (pyReprStrList l).data := by
    simp [pyReprStrList, String.data_append]
  exact h4 ▸ h3

/-- Failure of `validate_plan` is exactly nonemptiness of its errors list. -/
theorem validate_plan_error_shape (plan : GA4Plan) (e : String)
    (h : validate_plan plan = .error e) :
    validate_plan_errors plan ≠ [] ∧
      e = "GA4 plan validation failed: " ++ pyJoin "; " (validate_plan_errors plan) := by
  by_cases hb : (validate_plan_errors plan).isEmpty
  · rw [validate_plan, if_pos hb] at h
    cases h
  · rw [validate_plan, if_neg hb] at h
    refine ⟨fun hn => hb (by simp [hn]), ?_⟩
    cases h
    rfl

/-- The boolean validity flag of `validate_metrics` is false exactly when some
metric lies outside the allowlist. -/
theorem validate_metrics_fst_false_iff (ms : List String) :
    (validate_metrics ms).1 = false ↔ ∃ m ∈ ms, m ∉ ALLOWED_METRICS := by
  simp [validate_metrics, List.length_eq_zero, List.filter_eq_nil_iff,
    List.contains, List.elem_iff]

/-- The boolean validity flag of `validate_dimensions` is false exactly when
some dimension lies outside the allowlist. -/
theorem validate_dimensions_fst_false_iff (ds : List String) :
    (validate_dimensions ds).1 = false ↔ ∃ d ∈ ds, d ∉ ALLOWED_DIMENSIONS := by
  simp [validate_dimensions, List.length_eq_zero, List.filter_eq_nil_iff,
    List.contains, List.elem_iff]

/-- `validate_plan` fails exactly on the four violation conditions. -/
theorem validate_plan_fails_iff (plan : GA4Plan) :
    (∃ e, validate_plan plan = .error e) ↔
      (∃ m ∈ plan.metrics.getD [], m ∉ ALLOWED_METRICS) ∨
      (∃ d ∈ plan.dimensions.getD [], d ∉ ALLOWED_DIMENSIONS) ∨
      plan.metrics = none ∨ plan.metrics = some [] ∨ plan.date_range = none := by
  have hb : (∃ e, validate_plan plan = .error e) ↔ validate_plan_errors plan ≠ [] := by
    constructor
    · rintro ⟨e, he⟩
      exact (validate_plan_error_shape plan e he).1
    · intro hne
      refine ⟨"GA4 plan validation failed: " ++ pyJoin "; " (validate_plan_errors plan), ?_⟩
      rw [validate_plan, if_neg (by simpa [List.isEmpty_iff] using hne)]
  rw [hb]
  obtain ⟨ms, ds, dr⟩ := plan
  rcases ms with _ | ms <;> rcases ds with _ | ds <;> rcases dr with _ | dr <;>
    simp [validate_plan_errors, List.append_eq_nil,
      validate_metrics_fst_false_iff, validate_dimensions_fst_false_iff,
      ← Bool.not_eq_true, Option.getD, imp_false, Classical.not_not]
  case mk.some.none.some =>
    by_cases hex : ∃ m ∈ ms, m ∉ ALLOWED_METRICS
    · simp [(validate_metrics_fst_false_iff ms).mpr hex, hex]
    · have ht : (validate_metrics ms).1 = true := by
        rcases Bool.eq_false_or_eq_true (validate_metrics ms).1 with h | h
        · exact h
        · exact absurd ((validate_metrics_fst_false_iff ms).mp h) hex
      simp [ht, hex]
  case mk.some.some.some =>
    by_cases hex : ∃ m ∈ ms, m ∉ ALLOWED_METRICS
    · simp [(validate_metrics_fst_false_iff ms).mpr hex, hex]
    · have ht : (validate_metrics ms).1 = true := by
        rcases Bool.eq_false_or_eq_true (validate_metrics ms).1 with h | h
        · exact h
        · exact absurd ((validate_metrics_fst_false_iff ms).mp h) hex
      by_cases hdx : ∃ d ∈ ds, d ∉ ALLOWED_DIMENSIONS
      · simp [ht, (validate_dimensions_fst_false_iff ds).mpr hdx, hdx, hex]
      · have ht2 : (validate_dimensions ds).1 = true := by
          rcases Bool.eq_false_or_eq_true (validate_dimensions ds).1 with h | h
          · exact h
          · exact absurd ((validate_dimensions_fst_false_iff ds).mp h) hdx
        simp [ht, ht2, hex, hdx]

/-- On failure, the `validate_plan` message text contains every offending
metric name and every offending dimension name. -/
theorem validate_plan_error_mentions (plan : GA4Plan) (e : String)
    (h : validate_plan plan = .error e) :
    (∀ m ∈ plan.metrics.getD [], m ∉ ALLOWED_METRICS → pyContains e m = true) ∧
    (∀ d ∈ plan.dimensions.getD [], d ∉ ALLOWED_DIMENSIONS → pyContains e d = true) := by
  obtain ⟨hne, he⟩ := validate_plan_error_shape plan e h
  subst he
  constructor
  · intro m hm hnot
    rcases hms : plan.metrics with _ | ms
    · rw [hms] at hm
      cases hm
    · rw [hms] at hm
      simp only [Option.getD_some] at hm
      have hfalse : (validate_metrics ms).1 = false :=
        (validate_metrics_fst_false_iff ms).mpr ⟨m, hm, hnot⟩
      have hmemfil : m ∈ (validate_metrics ms).2 := by
        simp [validate_metrics, List.mem_filter, hm, List.contains, List.elem_iff, hnot]
      have hentry : ("Invalid metrics: " ++ pyReprStrList (validate_metrics ms).2)
          ∈ validate_plan_errors plan := by
        simp [validate_plan_errors, hms, hfalse]
      have h4 := mem_pyReprStrList_isSub m _ hmemfil
      have h5 : m.data <:+: ("Invalid metrics: " ++ pyReprStrList (validate_metrics ms).2).data := by
        have := infix_extend "Invalid metrics: ".data [] h4
        simpa [String.data_append] using this
      have h6 := h5.trans (mem_pyJoin_isSub "; " _ _ hentry)
      have h7 : m.data <:+:
          ("GA4 plan validation failed: " ++ pyJoin "; " (validate_plan_errors plan)).data := by
        have := infix_extend "GA4 plan validation failed: ".data [] h6
        simpa [String.data_append] using this
      exact (listContainsSub_iff _ _).mpr h7
  · intro d hd hnot
    rcases hds : plan.dimensions with _ | ds
    · rw [hds] at hd
      cases hd
    · rw [hds] at hd
      simp only [Option.getD_some] at hd
      have hfalse : (validate_dimensions ds).1 = false :=
        (validate_dimensions_fst_false_iff ds).mpr ⟨d, hd, hnot⟩
      have hmemfil : d ∈ (validate_dimensions ds).2 := by
        simp [validate_dimensions, List.mem_filter, hd, List.contains, List.elem_iff, hnot]
      have hentry : ("Invalid dimensions: " ++ pyReprStrList (validate_dimensions ds).2)
          ∈ validate_plan_errors plan := by
        simp [validate_plan_errors, hds, hfalse]
      have h4 := mem_pyReprStrList_isSub d _ hmemfil
      have h5 : d.data <:+: ("Invalid dimensions: " ++ pyReprStrList (validate_dimensions ds).2).data := by
        have := infix_extend "Invalid dimensions: ".data [] h4
        simpa [String.data_append] using this
      have h6 := h5.trans (mem_pyJoin_isSub "; " _ _ hentry)
      have h7 : d.data <:+:
          ("GA4 plan validation failed: " ++ pyJoin "; " (validate_plan_errors plan)).data := by
        have := infix_extend "GA4 plan validation failed: ".data [] h6
        simpa [String.data_append] using this
      exact (listContainsSub_iff _ _).mpr h7

/-- C1: `validate_plan` fails (raises `ValueError`, modelled as
`Except.error`) exactly when some metric is outside the metrics allowlist,
some dimension is outside the dimensions allowlist, `metrics` is absent or
empty, or `date_range` is absent; and on failure the error message mentions
every offending metric name and every offending dimension name.  No partial
success value is returned on failure: the `Except` result is the error
alone. -/
theorem validate_plan_fails_iff_and_enumerates_offenders (plan : GA4Plan) :
    ((∃ e, validate_plan plan = .error e) ↔
      (∃ m ∈ plan.metrics.getD [], m ∉ ALLOWED_METRICS) ∨
      (∃ d ∈ plan.dimensions.getD [], d ∉ ALLOWED_DIMENSIONS) ∨
      plan.metrics = none ∨ plan.metrics = some [] ∨ plan.date_range = none) ∧
    (∀ e, validate_plan plan = .error e →
      (∀ m ∈ plan.metrics.getD [], m ∉ ALLOWED_METRICS → pyContains e m = true) ∧
      (∀ d ∈ plan.dimensions.getD [], d ∉ ALLOWED_DIMENSIONS → pyContains e d = true)) :=
  ⟨validate_plan_fails_iff plan, fun e h => validate_plan_error_mentions plan e h⟩

/-- The concrete invalid plan used to witness C1. -/
def c1Plan : GA4Plan :=
  { metrics := some ["sessions", "fakeMetric"],
    dimensions := some ["date", "fakeDim"],
    date_range := none }

/-- The error message `validate_plan` produces for `c1Plan`. -/
def c1Msg : String :=
  "GA4 plan validation failed: Invalid metrics: " ++ pyReprStrList ["fakeMetric"] ++
  "; Invalid dimensions: " ++ pyReprStrList ["fakeDim"] ++ "; Date range is required"

/-- C1 witness: a concrete plan with one unknown metric, one unknown
dimension and a missing date range; the produced message mentions both
offenders. -/
theorem validate_plan_fails_iff_and_enumerates_offenders_witness :
    validate_plan c1Plan = .error c1Msg ∧
    pyContains c1Msg "fakeMetric" = true ∧
    pyContains c1Msg "fakeDim" = true := by
  refine ⟨by rfl, ?_, ?_⟩
  · exact ((validate_plan_fails_iff_and_enumerates_offenders c1Plan).2 c1Msg
      (by rfl)).1 "fakeMetric" (by decide) (by decide)
  · exact ((validate_plan_fails_iff_and_enumerates_offenders c1Plan).2 c1Msg
      (by rfl)).2 "fakeDim" (by decide) (by decide)

/-! ## app/utils/llm.py -/

/-- Embedding of `_fallback_plan` (`app/utils/llm.py`, lines 86-139): the
deterministic keyword-matching planner used when the LLM call fails.  Each
rule mirrors one `if` of the source, applied in source order; later rules
overwrite (metrics, date range) or append to (dimensions) earlier ones. -/
def fallback_plan (query : String) : GA4Plan :=
  let query_lower := pyLower query
  let metrics := ["sessions"]
  let dimensions := ["date"]
  let date_range := "last_7_days"
  let metrics :=
    if ["user", "visitor", "audience"].any (fun word => pyContains query_lower word) then
      ["totalUsers", "activeUsers"]
    else metrics
  let metrics :=
    if ["page view", "pageview", "views"].any (fun word => pyContains query_lower word) then
      ["screenPageViews"]
    else metrics
  let metrics :=
    if ["bounce", "engagement"].any (fun word => pyContains query_lower word) then
      ["bounceRate"]
    else metrics
  let dimensions :=
    if ["page", "url", "path"].any (fun word => pyContains query_lower word) then
      if "date" ∉ dimensions then dimensions ++ ["pagePath"]
      else ["date", "pagePath"]
    else dimensions
  let dimensions :=
    if ["country", "location", "geo"].any (fun word => pyContains query_lower word) then
      dimensions ++ ["country"]
    else dimensions
  let dimensions :=
    if ["device", "mobile", "desktop"].any (fun word => pyContains query_lower word) then
      dimensions ++ ["deviceCategory"]
    else dimensions
  let date_range :=
    if ["yesterday"].any (fun word => pyContains query_lower word) then "yesterday"
    else if ["month", "30 days"].any (fun word => pyContains query_lower word) then "last_30_days"
    else if ["week", "14 days"].any (fun word => pyContains query_lower word) then "last_14_days"
    else date_range
  { metrics := some metrics, dimensions := some dimensions, date_range := some date_range }

/-- The shape of every `fallback_plan` output, abstracted over the results of
its nine keyword tests (same rule chain with the boolean conditions as
parameters). -/
def fallbackShape (b1 b2 b3 b4 b5 b6 b7 b8 b9 : Bool) : GA4Plan :=
  let metrics := ["sessions"]
  let dimensions := ["date"]
  let date_range := "last_7_days"
  let metrics := if b1 then ["totalUsers", "activeUsers"] else metrics
  let metrics := if b2 then ["screenPageViews"] else metrics
  let metrics := if b3 then ["bounceRate"] else metrics
  let dimensions :=
    if b4 then
      if "date" ∉ dimensions then dimensions ++ ["pagePath"]
      else ["date", "pagePath"]
    else dimensions
  let dimensions := if b5 then dimensions ++ ["country"] else dimensions
  let dimensions := if b6 then dimensions ++ ["deviceCategory"] else dimensions
  let date_range :=
    if b7 then "yesterday"
    else if b8 then "last_30_days"
    else if b9 then "last_14_days"
    else date_range
  { metrics := some metrics, dimensions := some dimensions, date_range := some date_range }

/-- `fallback_plan` is `fallbackShape` applied to its nine keyword tests. -/
theorem fallback_plan_eq_shape (query : String) :
    fallback_plan query =
      fallbackShape
        (["user", "visitor", "audience"].any (fun word => pyContains (pyLower query) word))
        (["page view", "pageview", "views"].any (fun word => pyContains (pyLower query) word))
        (["bounce", "engagement"].any (fun word => pyContains (pyLower query) word))
        (["page", "url", "path"].any (fun word => pyContains (pyLower query) word))
        (["country", "location", "geo"].any (fun word => pyContains (pyLower query) word))
        (["device", "mobile", "desktop"].any (fun word => pyContains (pyLower query) word))
        (["yesterday"].any (fun word => pyContains (pyLower query) word))
        (["month", "30 days"].any (fun word => pyContains (pyLower query) word))
        (["week", "14 days"].any (fun word => pyContains (pyLower query) word)) := rfl

/-- Every instance of the fallback shape satisfies the validator's checks. -/
theorem fallbackShape_valid :
    ∀ b1 b2 b3 b4 b5 b6 b7 b8 b9 : Bool,
      (fallbackShape b1 b2 b3 b4 b5 b6 b7 b8 b9).metrics ≠ none ∧
      (fallbackShape b1 b2 b3 b4 b5 b6 b7 b8 b9).metrics ≠ some [] ∧
      (∀ m ∈ (fallbackShape b1 b2 b3 b4 b5 b6 b7 b8 b9).metrics.getD [], m ∈ ALLOWED_METRICS) ∧
      (∀ d ∈ (fallbackShape b1 b2 b3 b4 b5 b6 b7 b8 b9).dimensions.getD [], d ∈ ALLOWED_DIMENSIONS) ∧
      (fallbackShape b1 b2 b3 b4 b5 b6 b7 b8 b9).date_range ≠ none ∧
      validate_plan_errors (fallbackShape b1 b2 b3 b4 b5 b6 b7 b8 b9) = [] := by
  decide

/-- C10: every plan the fallback planner produces passes `validate_plan`:
its metrics list is present, nonempty and inside the metrics allowlist, its
dimensions are inside the dimensions allowlist, a date range is present, and
`validate_plan` returns the success dict. -/
theorem fallback_plan_always_passes_validation (query : String) :
    (fallback_plan query).metrics ≠ none ∧
    (fallback_plan query).metrics ≠ some [] ∧
    (∀ m ∈ (fallback_plan query).metrics.getD [], m ∈ ALLOWED_METRICS) ∧
    (∀ d ∈ (fallback_plan query).dimensions.getD [], d ∈ ALLOWED_DIMENSIONS) ∧
    (fallback_plan query).date_range ≠ none ∧
    validate_plan (fallback_plan query) =
      .ok { valid := true,
            metrics_count := ((fallback_plan query).metrics.getD []).length,
            dimensions_count := ((fallback_plan query).dimensions.getD []).length,
            validated_at := "ga4_validation.py" } := by
  rw [fallback_plan_eq_shape]
  have h := fallbackShape_valid
    (["user", "visitor", "audience"].any (fun word => pyContains (pyLower query) word))
    (["page view", "pageview", "views"].any (fun word => pyContains (pyLower query) word))
    (["bounce", "engagement"].any (fun word => pyContains (pyLower query) word))
    (["page", "url", "path"].any (fun word => pyContains (pyLower query) word))
    (["country", "location", "geo"].any (fun word => pyContains (pyLower query) word))
    (["device", "mobile", "desktop"].any (fun word => pyContains (pyLower query) word))
    (["yesterday"].any (fun word => pyContains (pyLower query) word))
    (["month", "30 days"].any (fun word => pyContains (pyLower query) word))
    (["week", "14 days"].any (fun word => pyContains (pyLower query) word))
  refine ⟨h.1, h.2.1, h.2.2.1, h.2.2.2.1, h.2.2.2.2.1, ?_⟩
  rw [validate_plan, h.2.2.2.2.2]
  rfl

/-- C8: the fallback planner on
`"show me user traffic by country last month"` overrides metrics to the
user-related pair, appends `country` to the dimensions, and resolves the
date range to the 30-day token, reflecting the rule order. -/
theorem fallback_plan_user_country_month :
    (fallback_plan "show me user traffic by country last month").metrics =
      some ["totalUsers", "activeUsers"] ∧
    "country" ∈ (fallback_plan "show me user traffic by country last month").dimensions.getD [] ∧
    (fallback_plan "show me user traffic by country last month").dimensions =
      some ["date", "country"] ∧
    (fallback_plan "show me user traffic by country last month").date_range =
      some "last_30_days" := by
  decide

/-! ## app/orchestrator.py -/

/-- A Python value as it appears inside the orchestrator's heterogeneous
response dicts: strings, integers, lists, and dicts in insertion order. -/
inductive PyVal where
  | str : String → PyVal
  | int : Int → PyVal
  | list : List PyVal → PyVal
  | dict : List (String × PyVal) → PyVal

/-- Python `"k" in d` on a dict value (false on non-dicts, which never occur
at the orchestrator's key checks). -/
def PyVal.hasKey : PyVal → String → Bool
  | .dict fields, k => fields.any fun kv => kv.1 == k
  | _, _ => false

/-- The key list of a dict value, in insertion order. -/
def PyVal.keys : PyVal → List String
  | .dict fields => fields.map Prod.fst
  | _ => []

/-- Python `"k" in responses` on the orchestrator's `responses` dict,
modelled as an insertion-ordered association list. -/
def assocHasKey (responses : List (String × PyVal)) (k : String) : Bool :=
  responses.any fun kv => kv.1 == k

/-- Python `responses[k]`; all uses in the source are guarded by a key
check, so the default is unreachable. -/
def assocGet (responses : List (String × PyVal)) (k : String) : PyVal :=
  ((responses.find? fun kv => kv.1 == k).map Prod.snd).getD (.dict [])

/-- The `QueryRequest` body of `POST /query`: a query string and an optional
`propertyId`. -/
structure QueryRequest where
  query : String
  propertyId : Option String

/-- Python truthiness of `req.propertyId` (`if not req.propertyId`): both a
missing value and an empty string are falsy. -/
def pyTruthyOptStr : Option String → Bool
  | none => false
  | some s => !s.data.isEmpty

namespace Orchestrator

/-- The GA4 keyword set of `_detect_ga4_intent` (`orchestrator.py`,
lines 84-93). -/
def ga4_keywords : List String :=
  ["page view", "pageview", "users", "sessions", "traffic", "views",
   "bounce rate", "conversion", "goal", "event", "audience",
   "acquisition", "behavior", "demographic", "geographic",
   "device", "browser", "source", "medium", "campaign"]

/-- The SEO keyword set of `_detect_seo_intent` (`orchestrator.py`,
lines 95-104). -/
def seo_keywords : List String :=
  ["title", "meta", "index", "https", "seo", "crawl",
   "heading", "alt text", "schema", "sitemap", "robot",
   "canonical", "redirect", "broken link", "duplicate",
   "page speed", "mobile friendly", "structured data"]

/-- Embedding of `_detect_ga4_intent`: any GA4 keyword occurs as a substring
of the (already lowercased) query. -/
def detect_ga4_intent (query : String) : Bool :=
  ga4_keywords.any fun keyword => pyContains query keyword

/-- Embedding of `_detect_seo_intent`. -/
def detect_seo_intent (query : String) : Bool :=
  seo_keywords.any fun keyword => pyContains query keyword

/-- Embedding of `_generate_combined_insights` (`orchestrator.py`,
lines 118-130). -/
def generate_combined_insights (responses : List (String × PyVal)) : List PyVal :=
  let insights : List PyVal := []
  if assocHasKey responses "analytics" && assocHasKey responses "seo" then
    let insights :=
      insights ++ [.str "Cross-referencing traffic data with SEO health indicators"]
    if !(assocGet responses "analytics").hasKey "error" &&
        !(assocGet responses "seo").hasKey "error" then
      insights ++ [.str "Both analytics and SEO data available for comprehensive analysis"]
    else insights
  else insights

/-- Embedding of `_merge_responses` (`orchestrator.py`, lines 106-116). -/
def merge_responses (responses : List (String × PyVal)) (query : String) : PyVal :=
  .dict [("query", .str query),
         ("summary", .str "Combined analytics and SEO insights"),
         ("insights", .list (generate_combined_insights responses)),
         ("data", .dict responses)]

/-- Embedding of `Orchestrator.handle` (`orchestrator.py`, lines 18-82).
The two agents are the orchestrator's collaborators and are passed as
function parameters; an agent that raises is modelled as returning
`Except.error` with the exception text, which `handle` converts to the
per-domain error dict exactly as the source's `try/except` blocks do.  The
early `return` for a missing `propertyId` happens before either agent is
consulted, which the embedding reflects by not touching the agent
parameters on that path. -/
def handle (ga4_run : String → Option String → Except String PyVal)
    (seo_run : String → Except String PyVal) (req : QueryRequest) : PyVal :=
  let query := pyLower req.query
  let needs_ga4 := detect_ga4_intent query
  let needs_seo := detect_seo_intent query
  if needs_ga4 && !pyTruthyOptStr req.propertyId then
    .dict [("error", .str "propertyId is required for GA4 analytics queries"),
           ("query", .str req.query)]
  else
    let responses : List (String × PyVal) :=
      (if needs_ga4 then
        [("analytics",
          match ga4_run req.query req.propertyId with
          | .ok v => v
          | .error e => .dict [("error", .str ("Analytics processing failed: " ++ e))])]
       else []) ++
      (if needs_seo then
        [("seo",
          match seo_run req.query with
          | .ok v => v
          | .error e => .dict [("error", .str ("SEO processing failed: " ++ e))])]
       else [])
    if responses.isEmpty then
      .dict [("error",
              .str "Could not determine query intent. Please specify analytics or SEO related questions."),
             ("query", .str req.query),
             ("supported_intents",
              .list [.str "Analytics: page views, users, sessions, traffic",
                     .str "SEO: titles, meta tags, indexing, HTTPS status"])]
    else if responses.length > 1 then
      merge_responses responses req.query
    else
      (responses.head?.map Prod.snd).getD (.dict [])

end Orchestrator

/-- C4: when the lowercased query fires the analytics intent and no
`propertyId` is supplied, `handle` returns the missing-identifier error dict.
The theorem holds for arbitrary agent functions and the result does not
depend on them, so neither agent can have been invoked on this path. -/
theorem handle_missing_identifier_short_circuits
    (ga4_run : String → Option String → Except String PyVal)
    (seo_run : String → Except String PyVal) (req : QueryRequest)
    (hga : Orchestrator.detect_ga4_intent (pyLower req.query) = true)
    (hpid : req.propertyId = none) :
    Orchestrator.handle ga4_run seo_run req =
      .dict [("error", .str "propertyId is required for GA4 analytics queries"),
             ("query", .str req.query)] := by
  unfold Orchestrator.handle
  simp [hga, hpid, pyTruthyOptStr]

/-- C4 witness: the query `"how many page views did we get"` (contains the
keyword `"page view"`) with no propertyId, against arbitrary constant
agents. -/
theorem handle_missing_identifier_short_circuits_witness :
    Orchestrator.detect_ga4_intent (pyLower "how many page views did we get") = true ∧
    Orchestrator.handle (fun _ _ => .ok (.dict [])) (fun _ => .ok (.dict []))
        ⟨"how many page views did we get", none⟩ =
      .dict [("error", .str "propertyId is required for GA4 analytics queries"),
             ("query", .str "how many page views did we get")] :=
  ⟨by decide,
   handle_missing_identifier_short_circuits _ _ _ (by decide) rfl⟩

/-- C3: when the lowercased query fires both intents, a truthy `propertyId`
is supplied, and both agent calls return without raising and without an
`"error"` key, `handle` returns the merged envelope: its `data` dict has
exactly the keys `analytics` and `seo`, and its insight list is nonempty
(here computed exactly: both static insights). -/
theorem handle_merges_both_domains
    (ga4_run : String → Option String → Except String PyVal)
    (seo_run : String → Except String PyVal) (req : QueryRequest) (ra rs : PyVal)
    (hga : Orchestrator.detect_ga4_intent (pyLower req.query) = true)
    (hseo : Orchestrator.detect_seo_intent (pyLower req.query) = true)
    (hpid : pyTruthyOptStr req.propertyId = true)
    (hra : ga4_run req.query req.propertyId = .ok ra)
    (hrae : ra.hasKey "error" = false)
    (hrs : seo_run req.query = .ok rs)
    (hrse : rs.hasKey "error" = false) :
    Orchestrator.handle ga4_run seo_run req =
      .dict [("query", .str req.query),
             ("summary", .str "Combined analytics and SEO insights"),
             ("insights",
              .list [.str "Cross-referencing traffic data with SEO health indicators",
                     .str "Both analytics and SEO data available for comprehensive analysis"]),
             ("data", .dict [("analytics", ra), ("seo", rs)])] ∧
    (PyVal.dict [("analytics", ra), ("seo", rs)]).keys = ["analytics", "seo"] ∧
    ([.str "Cross-referencing traffic data with SEO health indicators",
      .str "Both analytics and SEO data available for comprehensive analysis"] : List PyVal) ≠ [] := by
  refine ⟨?_, rfl, by simp⟩
  unfold Orchestrator.handle
  simp [hga, hseo, hpid, hra, hrs, Orchestrator.merge_responses,
    Orchestrator.generate_combined_insights, assocHasKey, assocGet, hrae, hrse]

/-- C3 witness: the query `"sessions and title please"` (fires both keyword
sets) with propertyId `"123456"` and two concrete error-free agent
results. -/
theorem handle_merges_both_domains_witness :
    Orchestrator.detect_ga4_intent (pyLower "sessions and title please") = true ∧
    Orchestrator.detect_seo_intent (pyLower "sessions and title please") = true ∧
    pyTruthyOptStr (some "123456") = true ∧
    Orchestrator.handle
        (fun _ _ => .ok (PyVal.dict [("rows", .list [])]))
        (fun _ => .ok (PyVal.dict [("summary", .str "seo ok")]))
        ⟨"sessions and title please", some "123456"⟩ =
      .dict [("query", .str "sessions and title please"),
             ("summary", .str "Combined analytics and SEO insights"),
             ("insights",
              .list [.str "Cross-referencing traffic data with SEO health indicators",
                     .str "Both analytics and SEO data available for comprehensive analysis"]),
             ("data", .dict [("analytics", PyVal.dict [("rows", .list [])]),
                             ("seo", PyVal.dict [("summary", .str "seo ok")])])] :=
  ⟨by decide, by decide, by decide,
   (handle_merges_both_domains
      (fun _ _ => .ok (PyVal.dict [("rows", .list [])]))
      (fun _ => .ok (PyVal.dict [("summary", .str "seo ok")]))
      ⟨"sessions and title please", some "123456"⟩
      (PyVal.dict [("rows", .list [])])
      (PyVal.dict [("summary", .str "seo ok")])
      (by decide) (by decide) (by decide) rfl rfl rfl rfl).1⟩

/-! ## app/agents/seo_agent.py -/

/-- One row of the SEO dataframe, restricted to the columns
`general_seo_health` reads.  `none` models a pandas NaN cell. -/
structure SeoRow where
  address : Option String
  title : Option String
  metaDescription : Option String
  statusCode : Int
deriving DecidableEq, Repr

/-- The loaded dataframe: its rows plus whether the optional `Status Code`
column is present (`"Status Code" in self.df.columns`); when it is absent the
per-row `statusCode` values are not read. -/
structure SeoTable where
  rows : List SeoRow
  hasStatusCodeColumn : Bool
deriving DecidableEq, Repr

/-- Pandas `df["Address"].str.startswith("http://", na=False)` for one row. -/
def rowIsHttp (r : SeoRow) : Bool :=
  (r.address.map fun a => "http://".data.isPrefixOf a.data).getD false

/-- Pandas `df["Title 1"].isna() | (df["Title 1"] == "")` for one row. -/
def rowMissingTitle (r : SeoRow) : Bool :=
  match r.title with
  | none => true
  | some t => t == ""

/-- Pandas `df["Title 1"].str.len() > 60` for one row (NaN compares false). -/
def rowLongTitle (r : SeoRow) : Bool :=
  match r.title with
  | none => false
  | some t => 60 < t.length

/-- Pandas missing-meta test for one row. -/
def rowMissingMeta (r : SeoRow) : Bool :=
  match r.metaDescription with
  | none => true
  | some m => m == ""

/-- Pandas `df["Status Code"] != 200` for one row. -/
def rowErrorStatus (r : SeoRow) : Bool := r.statusCode != 200

/-- The report dict returned by `general_seo_health` on its success path. -/
structure SeoHealthReport where
  summary : String
  analysis_type : String
  health_score : Int
  total_pages_analyzed : Nat
  issues_found : Nat
  issues : List String
  recommendations : List String
deriving DecidableEq, Repr

/-- Embedding of `SEOAgent.general_seo_health` (`seo_agent.py`, lines
366-431) on a loaded dataframe (the `self.df is None` guard and the
`except` wrapper concern only an agent whose load failed, which cannot
happen: `_load_data` always installs a dataframe).  Each Python `if` that
both deducts and appends an issue is rendered as one conditional update of
the score and one of the issue list, with the identical condition. -/
def general_seo_health (df : SeoTable) : SeoHealthReport :=
  let health_score : Int := 100
  let issues : List String := []
  let http_urls := (df.rows.filter rowIsHttp).length
  let health_score := if http_urls > 0 then health_score - 20 else health_score
  let issues :=
    if http_urls > 0 then issues ++ [toString http_urls ++ " pages not using HTTPS"]
    else issues
  let missing_titles := (df.rows.filter rowMissingTitle).length
  let health_score := if missing_titles > 0 then health_score - 15 else health_score
  let issues :=
    if missing_titles > 0 then issues ++ [toString missing_titles ++ " pages missing titles"]
    else issues
  let long_titles := (df.rows.filter rowLongTitle).length
  let health_score := if long_titles > 0 then health_score - 10 else health_score
  let issues :=
    if long_titles > 0 then
      issues ++ [toString long_titles ++ " pages have titles over 60 characters"]
    else issues
  let missing_meta := (df.rows.filter rowMissingMeta).length
  let health_score := if missing_meta > 0 then health_score - 10 else health_score
  let issues :=
    if missing_meta > 0 then
      issues ++ [toString missing_meta ++ " pages missing meta descriptions"]
    else issues
  let error_pages := (df.rows.filter rowErrorStatus).length
  let health_score :=
    if df.hasStatusCodeColumn then
      if error_pages > 0 then health_score - 15 else health_score
    else health_score
  let issues :=
    if df.hasStatusCodeColumn then
      if error_pages > 0 then
        issues ++ [toString error_pages ++ " pages returning error status codes"]
      else issues
    else issues
  let health_score := max 0 health_score
  { summary := "SEO Health Score: " ++ toString health_score ++ "/100",
    analysis_type := "general_seo_health",
    health_score := health_score,
    total_pages_analyzed := df.rows.length,
    issues_found := issues.length,
    issues := issues,
    recommendations :=
      ["Prioritize fixing HTTPS issues for security and ranking benefits",
       "Ensure all pages have unique, optimized titles",
       "Add compelling meta descriptions to improve click-through rates",
       "Fix any technical errors affecting page accessibility",
       "Regularly monitor and maintain SEO health metrics"] }

/-- A filtered list is nonempty exactly when some element satisfies the
predicate. -/
theorem filter_length_pos_iff_any {α : Type} (p : α → Bool) (l : List α) :
    0 < (l.filter p).length ↔ l.any p = true := by
  rw [List.length_pos, Ne, List.filter_eq_nil_iff, List.any_eq_true]
  push_neg
  tauto

/-- The health score in closed form: 100 minus each triggered fixed
deduction, floored at 0. -/
theorem general_seo_health_score_closed_form (df : SeoTable) :
    (general_seo_health df).health_score =
      max 0 (100
        - (if df.rows.any rowIsHttp then 20 else 0)
        - (if df.rows.any rowMissingTitle then 15 else 0)
        - (if df.rows.any rowLongTitle then 10 else 0)
        - (if df.rows.any rowMissingMeta then 10 else 0)
        - (if df.hasStatusCodeColumn && df.rows.any rowErrorStatus then 15 else 0)) := by
  unfold general_seo_health
  dsimp only
  by_cases h1 : df.rows.any rowIsHttp = true <;>
  by_cases h2 : df.rows.any rowMissingTitle = true <;>
  by_cases h3 : df.rows.any rowLongTitle = true <;>
  by_cases h4 : df.rows.any rowMissingMeta = true <;>
  by_cases h5 : df.hasStatusCodeColumn = true <;>
  by_cases h6 : df.rows.any rowErrorStatus = true <;>
    simp [h1, h2, h3, h4, h5, h6, gt_iff_lt, filter_length_pos_iff_any,
      Bool.not_eq_true]

/-- The concrete 5-row dataset of C5: one non-https row (an `http://`
address), one missing title, no long titles, no missing meta descriptions,
and no error status codes. -/
def c5Table : SeoTable :=
  { rows :=
      [{ address := some "http://example.com/", title := some "Home",
         metaDescription := some "Welcome home", statusCode := 200 },
       { address := some "https://example.com/about", title := none,
         metaDescription := some "About the company", statusCode := 200 },
       { address := some "https://example.com/contact", title := some "Contact",
         metaDescription := some "Reach out to us", statusCode := 200 },
       { address := some "https://example.com/services", title := some "Our Services",
         metaDescription := some "What we do", statusCode := 200 },
       { address := some "https://example.com/blog", title := some "Blog",
         metaDescription := some "Latest posts", statusCode := 200 }],
    hasStatusCodeColumn := true }

/-- C5: for every dataset the general SEO health score is 100 minus 20 when
a non-https (`http://`) row exists, minus 15 when a title is missing, minus
10 when a title exceeds 60 characters, minus 10 when a meta description is
missing, minus 15 when a row carries a non-200 status code (possible only
when the status column exists), floored at 0; on the concrete 5-row dataset
with one non-https row and one missing title the score is 65. -/
theorem general_seo_health_score_formula_and_example :
    (∀ df : SeoTable,
      (general_seo_health df).health_score =
        max 0 (100
          - (if df.rows.any rowIsHttp then 20 else 0)
          - (if df.rows.any rowMissingTitle then 15 else 0)
          - (if df.rows.any rowLongTitle then 10 else 0)
          - (if df.rows.any rowMissingMeta then 10 else 0)
          - (if df.hasStatusCodeColumn && df.rows.any rowErrorStatus then 15 else 0))) ∧
    c5Table.rows.length = 5 ∧
    c5Table.rows.any rowIsHttp = true ∧
    c5Table.rows.any rowMissingTitle = true ∧
    c5Table.rows.any rowLongTitle = false ∧
    c5Table.rows.any rowMissingMeta = false ∧
    c5Table.rows.any rowErrorStatus = false ∧
    (general_seo_health c5Table).health_score = 65 :=
  ⟨general_seo_health_score_closed_form, by decide, by decide, by decide,
   by decide, by decide, by decide, by decide⟩

/-! ## app/agents/ga4_agent.py -/

/-- The names bound at module scope in `app/agents/ga4_agent.py`: its
imports (lines 6-15) and the class it defines.  `logger` is not among
them — the module calls `logger.warning` / `logger.info` (lines 39, 51,
127, 297) but never imports `logging` nor binds a `logger`, and
`from app.utils.logger import ...` brings in only the four listed
functions. -/
def ga4_agent_module_bindings : List String :=
  ["BetaAnalyticsDataClient", "RunReportRequest", "Dimension", "Metric",
   "os", "time", "Dict", "Any",
   "validate_plan", "ALLOWED_METRICS", "ALLOWED_DIMENSIONS",
   "parse_date_range", "get_human_readable_range",
   "parse_analytics_query",
   "log_ga4_query", "log_agent_call", "log_error", "log_performance",
   "GA4Agent"]

/-- Whether the name `logger` resolves at module scope in `ga4_agent.py`. -/
def logger_is_bound : Bool := ga4_agent_module_bindings.contains "logger"

/-- A Python exception raised inside the agent's `try` block. -/
inductive PyExn where
  | valueError : String → PyExn
  | nameError : String → PyExn
deriving DecidableEq, Repr

/-- Python `str(e)` for the exceptions above, as interpolated into the
agent's f-strings. -/
def PyExn.text : PyExn → String
  | .valueError msg => msg
  | .nameError n => "name " ++ pyReprStr n ++ " is not defined"

/-- A `MockRow` of the demo response: parallel dimension and metric value
arrays. -/
structure MockRow where
  dimension_values : List String
  metric_values : List String
deriving DecidableEq, Repr

/-- The `MockResponse` built by `_get_demo_data`. -/
structure MockResponse where
  rows : List MockRow
  row_count : Nat
deriving DecidableEq, Repr

/-- Embedding of the data built by `_get_demo_data` (`ga4_agent.py`, lines
237-298): seven rows, one per day of a fixed window.  Its external
nondeterminism is passed in: `dateStr i` stands for
`(datetime.now() - timedelta(days=6-i)).strftime(...)`, `randPath i` for
`random.choice(paths)`, and `randMetricValue i m` for the `random.randint`
draw for metric `m` in row `i`. -/
def get_demo_data (dateStr : Nat → String) (randPath : Nat → String)
    (randMetricValue : Nat → String → String) (plan : GA4Plan) : MockResponse :=
  { rows := (List.range 7).map fun i =>
      { dimension_values := (plan.dimensions.getD []).map fun dim =>
          if dim = "date" then dateStr i
          else if dim = "pagePath" then randPath i
          else "demo_value",
        metric_values := (plan.metrics.getD []).map fun metric =>
          randMetricValue i metric },
    row_count := 7 }

/-- Embedding of `_execute_ga4_request` (`ga4_agent.py`, lines 113-149) for
an agent in demo mode (`credentials_valid == False`, the state after
construction without a readable `credentials.json`).  The demo branch first
executes `logger.warning(...)` (line 127); whether that line runs or raises
`NameError` depends on whether `logger` is bound in the module scope. -/
def execute_ga4_request_demo (dateStr : Nat → String) (randPath : Nat → String)
    (randMetricValue : Nat → String → String) (plan : GA4Plan) :
    Except PyExn MockResponse :=
  if logger_is_bound then
    .ok (get_demo_data dateStr randPath randMetricValue plan)
  else
    .error (.nameError "logger")

/-- Embedding of `_format_response` (`ga4_agent.py`, lines 151-198).  The
source's dict comprehension zips each row's value array with the plan's name
array positionally; the demo generator always produces arrays of equal
length. -/
def format_response (response : MockResponse) (plan : GA4Plan)
    (original_query : String) : PyVal :=
  let rows := response.rows.map fun row =>
    PyVal.dict
      [("dimensions",
        .dict (((plan.dimensions.getD []).zip row.dimension_values).map
          fun p => (p.1, PyVal.str p.2))),
       ("metrics",
        .dict (((plan.metrics.getD []).zip row.metric_values).map
          fun p => (p.1, PyVal.str p.2)))]
  let date_range_str := get_human_readable_range (parse_date_range (plan.date_range.getD ""))
  let summary := "GA4 analytics report for " ++ date_range_str ++ ". Retrieved " ++
    toString rows.length ++ " data points for " ++
    pyJoin ", " (plan.metrics.getD []) ++ " metrics."
  .dict [("summary", .str summary),
         ("query", .str original_query),
         ("metrics", .list ((plan.metrics.getD []).map PyVal.str)),
         ("dimensions", .list ((plan.dimensions.getD []).map PyVal.str)),
         ("date_range", .str date_range_str),
         ("rows", .list rows),
         ("total_rows", .int rows.length)]

/-- Embedding of `_empty_data_response` (`ga4_agent.py`, lines 200-235). -/
def empty_data_response (plan : GA4Plan) (property_id : String) : PyVal :=
  let date_range_str := get_human_readable_range (parse_date_range (plan.date_range.getD ""))
  .dict [("summary",
          .str ("No data available for the selected period (" ++ date_range_str ++ ").")),
         ("message", .str "This could be due to:"),
         ("possible_reasons",
          .list [.str "No traffic during the selected time period",
                 .str "Data processing delay (GA4 data can be delayed up to 24-48 hours)",
                 .str "Property ID may not have data for the requested metrics",
                 .str "Filters may be too restrictive"]),
         ("suggestions",
          .list [.str "Try a different date range (e.g., last 30 days)",
                 .str "Check if the property ID is correct",
                 .str "Verify the website has tracking implemented"]),
         ("metrics", .list ((plan.metrics.getD []).map PyVal.str)),
         ("dimensions", .list ((plan.dimensions.getD []).map PyVal.str)),
         ("date_range", .str date_range_str),
         ("property_id", .str property_id),
         ("rows", .list [])]

/-- Embedding of `GA4Agent.run` (`ga4_agent.py`, lines 55-111) for an agent
in demo mode.  The plan provider (`parse_analytics_query`, an external LLM
call with a deterministic fallback) is a parameter.  `except ValueError`
(the validator's exception) yields the validation envelope with the
allowlists; `except Exception` yields the processing-failure envelope. -/
def ga4_run_demo (parse_query : String → GA4Plan)
    (dateStr : Nat → String) (randPath : Nat → String)
    (randMetricValue : Nat → String → String)
    (query : String) (property_id : String) : PyVal :=
  let plan := parse_query query
  match validate_plan plan with
  | .error e =>
    .dict [("error", .str ("Query validation failed: " ++ e)),
           ("query", .str query),
           ("property_id", .str property_id),
           ("allowed_metrics", .list (ALLOWED_METRICS.map PyVal.str)),
           ("allowed_dimensions", .list (ALLOWED_DIMENSIONS.map PyVal.str))]
  | .ok _ =>
    match execute_ga4_request_demo dateStr randPath randMetricValue plan with
    | .error exn =>
      .dict [("error", .str ("Analytics processing failed: " ++ exn.text)),
             ("query", .str query),
             ("property_id", .str property_id)]
    | .ok response =>
      if response.rows.isEmpty then
        empty_data_response plan property_id
      else
        format_response response plan query

/-- C6: the spec claims that with no valid backend credential the agent
substitutes a 7-row synthetic Report and never returns an error.  The demo
generator does build exactly 7 rows, but the module never binds `logger`,
so the demo branch's `logger.warning(...)` raises `NameError` before the
data is returned and `run` answers with an "Analytics processing failed"
error envelope for every plan that passes validation.  (With no
`credentials.json` at all, `GA4Agent.__init__` hits the same unbound name
at line 39 and the agent cannot even be constructed.) -/
theorem ga4_demo_mode_raises_name_error (parse_query : String → GA4Plan)
    (dateStr : Nat → String) (randPath : Nat → String)
    (randMetricValue : Nat → String → String)
    (query property_id : String) (v : ValidationOk)
    (hvalid : validate_plan (parse_query query) = .ok v) :
    logger_is_bound = false ∧
    ga4_run_demo parse_query dateStr randPath randMetricValue query property_id =
      .dict [("error",
              .str ("Analytics processing failed: name " ++ pyReprStr "logger" ++
                " is not defined")),
             ("query", .str query),
             ("property_id", .str property_id)] ∧
    (get_demo_data dateStr randPath randMetricValue (parse_query query)).rows.length = 7 := by
  refine ⟨by decide, ?_, by simp [get_demo_data]⟩
  unfold ga4_run_demo
  dsimp only
  rw [hvalid]
  unfold execute_ga4_request_demo
  rw [if_neg (by decide)]
  rfl

/-- C6 witness: the fallback planner as plan provider on the query
`"show me sessions"`, whose plan passes validation, with concrete stand-ins
for the date and random draws. -/
theorem ga4_demo_mode_raises_name_error_witness :
    validate_plan (fallback_plan "show me sessions") =
      .ok { valid := true, metrics_count := 1, dimensions_count := 1,
            validated_at := "ga4_validation.py" } ∧
    ga4_run_demo fallback_plan (fun _ => "20250101") (fun _ => "/")
        (fun _ _ => "100") "show me sessions" "123456" =
      .dict [("error",
              .str ("Analytics processing failed: name " ++ pyReprStr "logger" ++
                " is not defined")),
             ("query", .str "show me sessions"),
             ("property_id", .str "123456")] :=
  ⟨by rfl,
   (ga4_demo_mode_raises_name_error fallback_plan (fun _ => "20250101") (fun _ => "/")
      (fun _ _ => "100") "show me sessions" "123456"
      { valid := true, metrics_count := 1, dimensions_count := 1,
        validated_at := "ga4_validation.py" } (by rfl)).2.1⟩
